import Mathlib

/-!
Verification of the MembershipPro membership-purchase portal.

This file shallowly embeds the server's core logic:
* the in-memory storage layer (`MemStorage` in `server/storage.ts`), and
* the `/api/payments` purchase flow and `/api/membership/:membershipId/change-plan`
  proration flow (`server/routes.ts`).

Modelling conventions: timestamps are integers in milliseconds; JS `number`
arithmetic on prices is modelled exactly over `ℚ`; JS `Map` iteration order
(insertion order) is modelled by lists appended at the tail; the external
Stripe gateway is modelled by recording the list of charge amounts (in minor
units) the endpoint would send, with the created payment-intent id supplied
as a parameter; the demo `Math.random` success flip is a `Bool` parameter.
-/

namespace MembershipPro

/-- Catalog entry, from `membershipPlans` in the schema and `initializePlans`.
The source stores `price` as a decimal string and the routes read it with
`parseFloat`; the numeric value is modelled directly as a rational. -/
structure MembershipPlan where
  id : Nat
  name : String
  type : String
  price : ℚ
  description : String
  validityDays : Nat
  features : List String
deriving Repr, DecidableEq

/-- A stored payment record, from the `payments` schema as produced by
`MemStorage.createPayment` (no raw card fields exist on this type: the
storage interface takes `Omit<InsertPayment, 'cardNumber' | 'expiryDate' |
'cvv' | 'terms'>`). `amount` is the decimal string's value as a rational. -/
structure Payment where
  id : Nat
  userId : Option Nat
  planId : Nat
  amount : ℚ
  cardholderName : String
  email : String
  status : String
  createdAt : Int
deriving Repr, DecidableEq

/-- A stored membership record, from the `userMemberships` schema as produced
by `MemStorage.createUserMembership`. -/
structure UserMembership where
  id : Nat
  userId : Nat
  planId : Nat
  status : String
  startDate : Int
  endDate : Option Int
  createdAt : Int
  stripeSubscriptionId : Option String
deriving Repr, DecidableEq

/-- A stored user record, from the `users` schema. -/
structure User where
  id : Nat
  username : String
  password : String
deriving Repr, DecidableEq

/-- The state of `MemStorage`: the four entity maps (in insertion order) and
the four id counters, all counters starting at 1 in the constructor. -/
structure MemStorage where
  users : List User
  membershipPlans : List MembershipPlan
  payments : List Payment
  userMemberships : List UserMembership
  currentUserId : Nat
  currentPlanId : Nat
  currentPaymentId : Nat
  currentMembershipId : Nat
deriving Repr, DecidableEq

/-- The monthly plan seeded by `initializePlans` (id 1, price "9.99", 30 days). -/
def monthlyPlan : MembershipPlan :=
  { id := 1
    name := "Monthly Membership"
    type := "monthly"
    price := 999/100
    description := "Basic Plan - Valid for 30 days"
    validityDays := 30
    features := ["Luggage protection coverage", "24/7 customer support", "Travel assistance"] }

/-- The annual plan seeded by `initializePlans` (id 2, price "99.99", 365 days). -/
def annualPlan : MembershipPlan :=
  { id := 2
    name := "Annual Membership"
    type := "annual"
    price := 9999/100
    description := "Premium Plan - Valid for 365 days"
    validityDays := 365
    features := ["Everything in Basic Plan", "Priority customer support", "Extended coverage limits", "Exclusive travel perks"] }

/-- The `MemStorage` constructor: empty maps, counters at 1, then
`initializePlans` seeds the two plans (consuming plan ids 1 and 2). -/
def initialStorage : MemStorage :=
  { users := []
    membershipPlans := [monthlyPlan, annualPlan]
    payments := []
    userMemberships := []
    currentUserId := 1
    currentPlanId := 3
    currentPaymentId := 1
    currentMembershipId := 1 }

/-- `MemStorage.getMembershipPlan`: map lookup by plan id. -/
def getMembershipPlan (s : MemStorage) (id : Nat) : Option MembershipPlan :=
  s.membershipPlans.find? (fun p => p.id == id)

/-- `MemStorage.getMembershipPlans`: all plans in insertion order. -/
def getMembershipPlans (s : MemStorage) : List MembershipPlan :=
  s.membershipPlans

/-- `MemStorage.getPayment`: map lookup by payment id. -/
def getPayment (s : MemStorage) (id : Nat) : Option Payment :=
  s.payments.find? (fun p => p.id == id)

/-- `MemStorage.getUser`: map lookup by user id. -/
def getUser (s : MemStorage) (id : Nat) : Option User :=
  s.users.find? (fun u => u.id == id)

/-- `MemStorage.getUserByUsername`: linear scan for the first username match. -/
def getUserByUsername (s : MemStorage) (username : String) : Option User :=
  s.users.find? (fun u => u.username == username)

/-- The insert shape accepted by `MemStorage.createUser`. -/
structure InsertUser where
  username : String
  password : String
deriving Repr, DecidableEq

/-- `MemStorage.createUser`: assigns `currentUserId++` and stores the user. -/
def createUser (s : MemStorage) (insertUser : InsertUser) : User × MemStorage :=
  let id := s.currentUserId
  let user : User := { id := id, username := insertUser.username, password := insertUser.password }
  (user, { s with users := s.users ++ [user], currentUserId := id + 1 })

/-- The insert shape accepted by `MemStorage.createPayment` (card fields are
already omitted by the interface type; `status` is optional). -/
structure InsertPaymentData where
  planId : Nat
  amount : ℚ
  cardholderName : String
  email : String
  status : Option String
deriving Repr, DecidableEq

/-- `MemStorage.createPayment`: assigns `currentPaymentId++`, sets
`userId = null`, defaults `status` to "pending", stamps `createdAt = now`. -/
def createPayment (s : MemStorage) (nowMs : Int) (payment : InsertPaymentData) :
    Payment × MemStorage :=
  let id := s.currentPaymentId
  let newPayment : Payment :=
    { id := id
      userId := none
      planId := payment.planId
      amount := payment.amount
      cardholderName := payment.cardholderName
      email := payment.email
      status := payment.status.getD "pending"
      createdAt := nowMs }
  (newPayment, { s with payments := s.payments ++ [newPayment], currentPaymentId := id + 1 })

/-- The insert shape accepted by `MemStorage.createUserMembership`
(`id` and `createdAt` are omitted; `startDate` is stamped by the store). -/
structure InsertUserMembershipData where
  userId : Nat
  planId : Nat
  status : String
  endDate : Option Int
  stripeSubscriptionId : Option String
deriving Repr, DecidableEq

/-- `MemStorage.createUserMembership`: assigns `currentMembershipId++`, stamps
`startDate` and `createdAt` to now, stores. -/
def createUserMembership (s : MemStorage) (nowMs : Int) (m : InsertUserMembershipData) :
    UserMembership × MemStorage :=
  let id := s.currentMembershipId
  let newMembership : UserMembership :=
    { id := id
      userId := m.userId
      planId := m.planId
      status := m.status
      startDate := nowMs
      endDate := m.endDate
      createdAt := nowMs
      stripeSubscriptionId := m.stripeSubscriptionId }
  (newMembership,
    { s with userMemberships := s.userMemberships ++ [newMembership],
             currentMembershipId := id + 1 })

/-- `MemStorage.getUserMembership`: first membership whose `userId` equals the
argument AND whose status is "active" (note: it matches on `userId`, not on
the record's own `id`). -/
def getUserMembership (s : MemStorage) (userId : Nat) : Option UserMembership :=
  s.userMemberships.find? (fun m => m.userId == userId && m.status == "active")

/-- The partial-update shape passed to `MemStorage.updateUserMembership` by its
only caller, the change-plan route: exactly the keys `planId`, `endDate`,
`stripeSubscriptionId`. -/
structure PlanChangeUpdates where
  planId : Nat
  endDate : Option Int
  stripeSubscriptionId : Option String
deriving Repr, DecidableEq

/-- `MemStorage.updateUserMembership`: finds the record by its `id`, throws
"Membership not found" when absent, else merges the partial fields and stores
the merged record back under the same key. -/
def updateUserMembership (s : MemStorage) (id : Nat) (updates : PlanChangeUpdates) :
    Except String (UserMembership × MemStorage) :=
  match s.userMemberships.find? (fun m => m.id == id) with
  | none => .error "Membership not found"
  | some existing =>
    let updated : UserMembership :=
      { existing with
          planId := updates.planId
          endDate := updates.endDate
          stripeSubscriptionId := updates.stripeSubscriptionId }
    .ok (updated, { s with
      userMemberships := s.userMemberships.map (fun m => if m.id == id then updated else m) })

/-- `MemStorage.getUserMembershipByEmail`: two-hop join — first payment with a
matching `email`, then first active membership whose `planId` equals that
payment's `planId`. -/
def getUserMembershipByEmail (s : MemStorage) (email : String) : Option UserMembership :=
  match s.payments.find? (fun p => p.email == email) with
  | none => none
  | some payment =>
    s.userMemberships.find? (fun m => m.planId == payment.planId && m.status == "active")

/-- Ceiling of the integer division `a / b` for positive `b`, used to model
JS `Math.ceil(diff / (1000*60*60*24))` on an exact millisecond difference. -/
def ceilDiv (a b : Int) : Int :=
  -((-a).fdiv b)

/-- Floor of a rational, computed from its normalized numerator and
denominator. -/
def ratFloor (q : ℚ) : Int :=
  q.num.fdiv (q.den : Int)

/-- JS `Math.round`: round half toward positive infinity. -/
def jsRound (q : ℚ) : Int :=
  ratFloor (q + 1/2)

/-- Milliseconds in one day (`1000*60*60*24`). -/
def msPerDay : Int := 86400000

/-- The proration computation of the change-plan route (routes.ts lines
443-459): `daysRemaining = ceil((endDate - now)/day)` when `endDate` is set,
else 0; if `newPrice > currentPrice` (total-price comparison) the prorated
amount is `(dailyNewRate - dailyCurrentRate) * daysRemaining`, else 0. -/
def changePlanProration (currentPlan newPlan : MembershipPlan) (endDate : Option Int)
    (nowMs : Int) : ℚ :=
  let currentPrice := currentPlan.price
  let newPrice := newPlan.price
  let daysRemaining : Int :=
    match endDate with
    | some e => ceilDiv (e - nowMs) msPerDay
    | none => 0
  if newPrice > currentPrice then
    let dailyCurrentRate := currentPrice / (currentPlan.validityDays : ℚ)
    let dailyNewRate := newPrice / (newPlan.validityDays : ℚ)
    (dailyNewRate - dailyCurrentRate) * (daysRemaining : ℚ)
  else
    0

/-- Outcome of `POST /api/membership/:membershipId/change-plan`. `ok` carries
the updated membership, the new plan, the prorated amount, and the one-off
payment intent id when a charge was made. `internalError` is the 500 path
taken when `updateUserMembership` throws. -/
inductive ChangePlanResult where
  | badRequest : ChangePlanResult
  | notFound : String → ChangePlanResult
  | internalError : String → ChangePlanResult
  | ok : UserMembership → MembershipPlan → ℚ → Option String → ChangePlanResult
deriving Repr, DecidableEq

/-- Prorated amount carried by a successful change-plan outcome. -/
def ChangePlanResult.prorated? : ChangePlanResult → Option ℚ
  | .ok _ _ pa _ => some pa
  | _ => none

/-- The change-plan route (routes.ts lines 420-504). Inputs beyond the state:
current time, the path parameter `membershipId`, the body field `newPlanId`
(0 is JS-falsy, hence rejected by `!newPlanId`), and the payment-intent id the
gateway would assign if a charge is created. Returns the HTTP outcome, the new
storage state, and the list of one-off charge amounts (in minor units) sent to
the gateway. -/
def changePlan (s : MemStorage) (nowMs : Int) (membershipId newPlanId : Nat)
    (intentId : String) : ChangePlanResult × MemStorage × List Int :=
  if newPlanId = 0 then (.badRequest, s, [])
  else
    match getUserMembership s membershipId with
    | none => (.notFound "Membership not found", s, [])
    | some currentMembership =>
      match getMembershipPlan s currentMembership.planId, getMembershipPlan s newPlanId with
      | some currentPlan, some newPlan =>
        let proratedAmount := changePlanProration currentPlan newPlan currentMembership.endDate nowMs
        let charges : List Int :=
          if proratedAmount > 0 then [jsRound (proratedAmount * 100)] else []
        let newSubscriptionId : Option String :=
          if proratedAmount > 0 then some intentId else currentMembership.stripeSubscriptionId
        let newEndDate : Int := nowMs + (newPlan.validityDays : Int) * msPerDay
        match updateUserMembership s membershipId
            { planId := newPlanId, endDate := some newEndDate,
              stripeSubscriptionId := newSubscriptionId } with
        | .error msg => (.internalError msg, s, charges)
        | .ok (updatedMembership, s') =>
          (.ok updatedMembership newPlan proratedAmount
            (if proratedAmount > 0 then some intentId else none), s', charges)
      | _, _ => (.notFound "Plan not found", s, [])

/-- The request body of `POST /api/payments` as accepted by the zod schema:
the business fields plus the raw card fields. -/
structure PaymentRequest where
  planId : Nat
  amount : ℚ
  cardholderName : String
  email : String
  cardNumber : String
  expiryDate : String
  cvv : String
  terms : Bool
deriving Repr, DecidableEq

/-- Modelled from the spec: the zod `insertPaymentSchema` lives in
`@shared/schema`, which is not among the provided sources. Per spec section 6
a request must satisfy: `planId` a positive integer, `amount` a positive
number, `cardholderName` a non-empty string, `email` a valid email format
(modelled as the character list containing an `@`), "plus raw card fields
which are accepted by schema" (no constraint stated on their values). -/
def validPaymentRequest (r : PaymentRequest) : Bool :=
  (0 < r.planId) && (0 < r.amount) && (r.cardholderName ≠ "") && (r.email.data.contains '@')

/-- Outcome of `POST /api/payments` (the purchase flow that also creates the
membership). `paymentFailed` is the simulated 10% card failure. -/
inductive PurchaseResult where
  | validationError : PurchaseResult
  | planNotFound : PurchaseResult
  | paymentFailed : PurchaseResult
  | ok : Payment → UserMembership → String → PurchaseResult
deriving Repr, DecidableEq

/-- Membership carried by a successful purchase outcome. -/
def PurchaseResult.membership? : PurchaseResult → Option UserMembership
  | .ok _ m _ => some m
  | _ => none

/-- The purchase route `POST /api/payments` (routes.ts lines 241-336): validate
the body, resolve the plan (404 before any gateway call), create the Stripe
payment intent for `round(amount*100)` cents, simulate card processing
(`demoSuccess`), then persist the Payment (card fields discarded) and create
the UserMembership with `userId = 1`, `status = "active"`,
`endDate = now + plan.validityDays days`, `stripeSubscriptionId` the intent id.
Returns the outcome, the new state, and the gateway calls made. -/
def processPayment (s : MemStorage) (nowMs : Int) (r : PaymentRequest)
    (intentId : String) (demoSuccess : Bool) :
    PurchaseResult × MemStorage × List Int :=
  if validPaymentRequest r = false then (.validationError, s, [])
  else
    match getMembershipPlan s r.planId with
    | none => (.planNotFound, s, [])
    | some plan =>
      let gatewayCalls : List Int := [jsRound (r.amount * 100)]
      if demoSuccess = false then (.paymentFailed, s, gatewayCalls)
      else
        let paymentAndState := createPayment s nowMs
          { planId := r.planId
            amount := r.amount
            cardholderName := r.cardholderName
            email := r.email
            status := some "completed" }
        let endDate : Int := nowMs + (plan.validityDays : Int) * msPerDay
        let membershipAndState := createUserMembership paymentAndState.2 nowMs
          { userId := 1
            planId := r.planId
            status := "active"
            endDate := some endDate
            stripeSubscriptionId := some intentId }
        (.ok paymentAndState.1 membershipAndState.1 intentId, membershipAndState.2, gatewayCalls)

/-- Runs a sequence of `createPayment` calls, returning the assigned ids in
order together with the final state. -/
def runCreatePayments (s : MemStorage) (nowMs : Int) :
    List InsertPaymentData → List Nat × MemStorage
  | [] => ([], s)
  | d :: ds =>
    let created := createPayment s nowMs d
    let rest := runCreatePayments created.2 nowMs ds
    (created.1.id :: rest.1, rest.2)

/-- Runs a sequence of `createUser` calls, returning the assigned ids in order
together with the final state. -/
def runCreateUsers (s : MemStorage) :
    List InsertUser → List Nat × MemStorage
  | [] => ([], s)
  | d :: ds =>
    let created := createUser s d
    let rest := runCreateUsers created.2 ds
    (created.1.id :: rest.1, rest.2)

/-- Runs a sequence of `createUserMembership` calls, returning the assigned ids
in order together with the final state. -/
def runCreateMemberships (s : MemStorage) (nowMs : Int) :
    List InsertUserMembershipData → List Nat × MemStorage
  | [] => ([], s)
  | d :: ds =>
    let created := createUserMembership s nowMs d
    let rest := runCreateMemberships created.2 nowMs ds
    (created.1.id :: rest.1, rest.2)

/-- A stored membership whose record id (1) differs from its user id (2);
used to exercise the change-plan lookup/update key mismatch. -/
def mLoadOnly : UserMembership :=
  { id := 1, userId := 2, planId := 1, status := "active", startDate := 0,
    endDate := some 0, createdAt := 0, stripeSubscriptionId := some "A" }

/-- Store holding only `mLoadOnly` on top of the seeded plans. -/
def storeLoadOnly : MemStorage :=
  { initialStorage with userMemberships := [mLoadOnly], currentMembershipId := 2 }

/-- Membership loaded by `getUserMembership 2` in `storeMismatch` (userId 2,
record id 1, on the annual plan, 15 days remaining). -/
def mLoaded : UserMembership :=
  { id := 1, userId := 2, planId := 2, status := "active", startDate := 0,
    endDate := some (15 * msPerDay), createdAt := 0, stripeSubscriptionId := some "A" }

/-- Membership targeted by `updateUserMembership 2` in `storeMismatch`
(record id 2, a different user, on the monthly plan). -/
def mTarget : UserMembership :=
  { id := 2, userId := 9, planId := 1, status := "active", startDate := 0,
    endDate := some 0, createdAt := 0, stripeSubscriptionId := some "B" }

/-- Store in which one change-plan call reads `mLoaded` but writes `mTarget`. -/
def storeMismatch : MemStorage :=
  { initialStorage with userMemberships := [mLoaded, mTarget], currentMembershipId := 3 }

/-- A membership of user 1 on the monthly plan with 15 days remaining. -/
def mMonthly15 : UserMembership :=
  { id := 1, userId := 1, planId := 1, status := "active", startDate := 0,
    endDate := some (15 * msPerDay), createdAt := 0, stripeSubscriptionId := none }

/-- Store holding only `mMonthly15` on top of the seeded plans. -/
def storeMonthly15 : MemStorage :=
  { initialStorage with userMemberships := [mMonthly15], currentMembershipId := 2 }

/-- A membership of user 1 on the annual plan with 15 days remaining. -/
def mAnnual15 : UserMembership :=
  { id := 1, userId := 1, planId := 2, status := "active", startDate := 0,
    endDate := some (15 * msPerDay), createdAt := 0, stripeSubscriptionId := some "subA" }

/-- Store holding only `mAnnual15` on top of the seeded plans. -/
def storeAnnual15 : MemStorage :=
  { initialStorage with userMemberships := [mAnnual15], currentMembershipId := 2 }

/-- A well-formed purchase request for the monthly plan (concrete card fields
exist only in the request, never in storage). -/
def sampleRequest : PaymentRequest :=
  { planId := 1, amount := 999/100, cardholderName := "Jane Doe",
    email := "jane@example.com", cardNumber := "4242424242424242",
    expiryDate := "12/30", cvv := "123", terms := true }

/-- If `a` is a member of `l`, satisfies `p`, and is the only member of `l`
satisfying `p`, then `l.find? p` returns `a`. -/
theorem find?_eq_some_of_unique {α : Type _} (p : α → Bool) (a : α) :
    ∀ l : List α, a ∈ l → p a = true → (∀ b ∈ l, p b = true → b = a) →
      l.find? p = some a := by
  intro l
  induction l with
  | nil => intro h; cases h
  | cons b bs ih =>
    intro hmem hpa huniq
    by_cases hpb : p b = true
    · rw [List.find?_cons_of_pos _ hpb, huniq b (List.mem_cons_self b bs) hpb]
    · rw [List.find?_cons_of_neg _ hpb]
      have hmem' : a ∈ bs := by
        cases List.mem_cons.mp hmem with
        | inl h => rw [h] at hpa; exact absurd hpa hpb
        | inr h => exact h
      exact ih hmem' hpa (fun c hc hpc => huniq c (List.mem_cons_of_mem b hc) hpc)

/-- C1: whenever change-plan reaches the proration step and the new plan's
total price is strictly greater than the current plan's total price (the
classification is exactly this total-price comparison, with no assumption at
all on the per-day rates), the returned proratedAmount is
`(newPlan.price/newPlan.validityDays - currentPlan.price/currentPlan.validityDays)
 * daysRemaining` with `daysRemaining = ceil((endDate - now) / 1 day)`. -/
theorem changePlan_upgrade_total_price_proration
    (s : MemStorage) (nowMs : Int) (membershipId newPlanId : Nat) (intentId : String)
    (m t : UserMembership) (currentPlan newPlan : MembershipPlan) (e : Int)
    (hnp : newPlanId ≠ 0)
    (hm : getUserMembership s membershipId = some m)
    (hcp : getMembershipPlan s m.planId = some currentPlan)
    (hnpl : getMembershipPlan s newPlanId = some newPlan)
    (hup : currentPlan.price < newPlan.price)
    (he : m.endDate = some e)
    (ht : s.userMemberships.find? (fun x => x.id == membershipId) = some t) :
    (changePlan s nowMs membershipId newPlanId intentId).1.prorated? =
      some ((newPlan.price / (newPlan.validityDays : ℚ) -
             currentPlan.price / (currentPlan.validityDays : ℚ)) *
            ((ceilDiv (e - nowMs) msPerDay : Int) : ℚ)) := by
  simp only [changePlan, if_neg hnp, hm, hcp, hnpl, updateUserMembership, ht,
    ChangePlanResult.prorated?, changePlanProration, he, gt_iff_lt, if_pos hup]

/-- C1 witness: in the seeded store, changing a monthly membership with 15
days remaining to the annual plan is classified as an upgrade by total price
(9.99 < 99.99) even though the per-day rate drops, and the prorated amount is
the formula's (negative) value. -/
theorem changePlan_upgrade_total_price_proration_witness :
    (changePlan storeMonthly15 0 1 2 "pi_up").1.prorated? =
      some ((annualPlan.price / (annualPlan.validityDays : ℚ) -
             monthlyPlan.price / (monthlyPlan.validityDays : ℚ)) *
            ((ceilDiv (15 * msPerDay - 0) msPerDay : Int) : ℚ)) :=
  changePlan_upgrade_total_price_proration storeMonthly15 0 1 2 "pi_up"
    mMonthly15 mMonthly15 monthlyPlan annualPlan (15 * msPerDay)
    (by decide) rfl rfl rfl (by norm_num [monthlyPlan, annualPlan]) rfl rfl

/-- C2: whenever change-plan reaches the proration step, (a) if the new plan's
total price is less than or equal to the current plan's, the prorated amount
is exactly 0 and no gateway charge call is made, and (b) in every such call a
one-off gateway charge is issued if and only if the prorated amount is
strictly positive. -/
theorem changePlan_downgrade_free_and_charge_iff
    (s : MemStorage) (nowMs : Int) (membershipId newPlanId : Nat) (intentId : String)
    (m : UserMembership) (currentPlan newPlan : MembershipPlan)
    (hnp : newPlanId ≠ 0)
    (hm : getUserMembership s membershipId = some m)
    (hcp : getMembershipPlan s m.planId = some currentPlan)
    (hnpl : getMembershipPlan s newPlanId = some newPlan) :
    (newPlan.price ≤ currentPlan.price →
      changePlanProration currentPlan newPlan m.endDate nowMs = 0 ∧
      (changePlan s nowMs membershipId newPlanId intentId).2.2 = []) ∧
    ((changePlan s nowMs membershipId newPlanId intentId).2.2 ≠ [] ↔
      0 < changePlanProration currentPlan newPlan m.endDate nowMs) := by
  have hch : (changePlan s nowMs membershipId newPlanId intentId).2.2 =
      if 0 < changePlanProration currentPlan newPlan m.endDate nowMs then
        [jsRound (changePlanProration currentPlan newPlan m.endDate nowMs * 100)]
      else [] := by
    simp only [changePlan, if_neg hnp, hm, hcp, hnpl, gt_iff_lt]
    cases hupd : updateUserMembership s membershipId
        { planId := newPlanId,
          endDate := some (nowMs + (newPlan.validityDays : Int) * msPerDay),
          stripeSubscriptionId :=
            if 0 < changePlanProration currentPlan newPlan m.endDate nowMs then some intentId
            else m.stripeSubscriptionId } with
    | error msg => simp [hupd]
    | ok pr => simp [hupd]
  constructor
  · intro hle
    have hpa : changePlanProration currentPlan newPlan m.endDate nowMs = 0 := by
      simp only [changePlanProration, gt_iff_lt, if_neg (not_lt.mpr hle)]
    refine ⟨hpa, ?_⟩
    rw [hch, hpa]
    simp
  · rw [hch]
    by_cases hpos : 0 < changePlanProration currentPlan newPlan m.endDate nowMs
    · simp [hpos]
    · simp [hpos]

/-- C2 witness: in the seeded store, changing an annual membership (99.99)
with 15 days remaining down to the monthly plan (9.99) yields a prorated
amount of exactly 0 and an empty list of gateway charge calls, and the charge
iff equivalence holds at this call. -/
theorem changePlan_downgrade_free_and_charge_iff_witness :
    (monthlyPlan.price ≤ annualPlan.price →
      changePlanProration annualPlan monthlyPlan mAnnual15.endDate 0 = 0 ∧
      (changePlan storeAnnual15 0 1 1 "pi_dn").2.2 = []) ∧
    ((changePlan storeAnnual15 0 1 1 "pi_dn").2.2 ≠ [] ↔
      0 < changePlanProration annualPlan monthlyPlan mAnnual15.endDate 0) :=
  changePlan_downgrade_free_and_charge_iff storeAnnual15 0 1 1 "pi_dn"
    mAnnual15 annualPlan monthlyPlan (by decide) rfl rfl rfl

/-- C3 counterexample: in `storeLoadOnly` no stored membership has record id 2,
yet `changePlan` with membershipId 2 does not fail NotFound — the userId-based
lookup finds `mLoadOnly` (record id 1) and the call ends in the 500 path when
the id-based update misses; conversely membershipId 1 IS a stored active
membership's id, yet the call fails NotFound instead of proceeding. -/
theorem changePlan_notFound_claim_counterexample :
    storeLoadOnly.userMemberships.find? (fun m => m.id == 2) = none ∧
    (changePlan storeLoadOnly 0 2 1 "pi").1 = .internalError "Membership not found" ∧
    (changePlan storeLoadOnly 0 2 1 "pi").1 ≠ .notFound "Membership not found" ∧
    mLoadOnly ∈ storeLoadOnly.userMemberships ∧ mLoadOnly.id = 1 ∧
    mLoadOnly.status = "active" ∧
    (changePlan storeLoadOnly 0 1 2 "pi").1 = .notFound "Membership not found" := by
  have h2 : (changePlan storeLoadOnly 0 2 1 "pi").1 =
      .internalError "Membership not found" := by
    norm_num [changePlan, storeLoadOnly, getUserMembership, getMembershipPlan, initialStorage,
      mLoadOnly, monthlyPlan, annualPlan, updateUserMembership, changePlanProration,
      ceilDiv, msPerDay]
  refine ⟨rfl, h2, ?_, List.mem_cons_self _ _, rfl, rfl, rfl⟩
  rw [h2]
  intro hcontra
  exact ChangePlanResult.noConfusion hcontra

/-- C3 (amended): the change-plan NotFound check is keyed on `userId`, not on
the membership record id — the call fails NotFound with no storage mutation
exactly when no stored membership has `userId = membershipId` with status
"active"; when such a record exists, the call proceeds past this check. -/
theorem changePlan_membership_lookup_is_by_userId
    (s : MemStorage) (nowMs : Int) (membershipId newPlanId : Nat) (intentId : String)
    (hnp : newPlanId ≠ 0) :
    (getUserMembership s membershipId = none →
      changePlan s nowMs membershipId newPlanId intentId =
        (.notFound "Membership not found", s, [])) ∧
    (∀ m, getUserMembership s membershipId = some m →
      (changePlan s nowMs membershipId newPlanId intentId).1 ≠
        .notFound "Membership not found") := by
  constructor
  · intro h
    simp only [changePlan, if_neg hnp, h]
  · intro m hm
    simp only [changePlan, if_neg hnp, hm]
    split
    · split
      · intro hcontra
        simp at hcontra
      · intro hcontra
        simp at hcontra
    · intro hcontra
      simp only [ChangePlanResult.notFound.injEq] at hcontra
      exact absurd hcontra (by decide)

/-- C3 witness: with only `mLoadOnly` (userId 2) stored, membershipId 5 hits
the NotFound path with no state change, while membershipId 2 proceeds past the
check. -/
theorem changePlan_membership_lookup_is_by_userId_witness :
    changePlan storeLoadOnly 0 5 1 "pi" =
      (.notFound "Membership not found", storeLoadOnly, []) ∧
    (changePlan storeLoadOnly 0 2 1 "pi").1 ≠ .notFound "Membership not found" :=
  ⟨(changePlan_membership_lookup_is_by_userId storeLoadOnly 0 5 1 "pi" (by decide)).1 rfl,
   (changePlan_membership_lookup_is_by_userId storeLoadOnly 0 2 1 "pi" (by decide)).2
     mLoadOnly rfl⟩

/-- C4 counterexample: in `storeMismatch` the call `changePlan 2 → plan 1`
succeeds with proratedAmount 0 and no gateway charge, yet the written record
(id 2)'s `stripeSubscriptionId` changes from "B" to "A" (the loaded record's
value) — so "stripeSubscriptionId ... otherwise unchanged" fails on the code. -/
theorem changePlan_frame_claim_counterexample :
    (changePlan storeMismatch 0 2 1 "pi").1.prorated? = some 0 ∧
    (changePlan storeMismatch 0 2 1 "pi").2.2 = [] ∧
    (storeMismatch.userMemberships.find? (fun m => m.id == 2)).map
      (fun m => m.stripeSubscriptionId) = some (some "B") ∧
    ((changePlan storeMismatch 0 2 1 "pi").2.1.userMemberships.find? (fun m => m.id == 2)).map
      (fun m => m.stripeSubscriptionId) = some (some "A") := by
  refine ⟨?_, ?_, rfl, ?_⟩ <;>
  norm_num [changePlan, storeMismatch, getUserMembership, getMembershipPlan, initialStorage,
    mLoaded, mTarget, monthlyPlan, annualPlan, updateUserMembership,
    ChangePlanResult.prorated?, changePlanProration, ceilDiv, msPerDay]

/-- C4 (amended): a change-plan call that reaches the update step updates only
the record whose id equals membershipId, setting `planId := newPlanId`,
`endDate := now + newPlan.validityDays days`, and `stripeSubscriptionId` to
the new charge's intent id if a charge was created, else to the LOADED
membership's `stripeSubscriptionId` (equal to the target's own prior value
whenever the loaded record is the target); `id`, `userId`, `status`,
`startDate`, `createdAt` of the written record and all other storage tables
are unchanged. -/
theorem changePlan_update_frame
    (s : MemStorage) (nowMs : Int) (membershipId newPlanId : Nat) (intentId : String)
    (m t : UserMembership) (currentPlan newPlan : MembershipPlan)
    (hnp : newPlanId ≠ 0)
    (hm : getUserMembership s membershipId = some m)
    (hcp : getMembershipPlan s m.planId = some currentPlan)
    (hnpl : getMembershipPlan s newPlanId = some newPlan)
    (ht : s.userMemberships.find? (fun x => x.id == membershipId) = some t) :
    ∃ updated : UserMembership,
      (changePlan s nowMs membershipId newPlanId intentId).1 =
        .ok updated newPlan (changePlanProration currentPlan newPlan m.endDate nowMs)
          (if changePlanProration currentPlan newPlan m.endDate nowMs > 0 then some intentId
           else none) ∧
      updated = { t with
        planId := newPlanId,
        endDate := some (nowMs + (newPlan.validityDays : Int) * msPerDay),
        stripeSubscriptionId :=
          if changePlanProration currentPlan newPlan m.endDate nowMs > 0 then some intentId
          else m.stripeSubscriptionId } ∧
      updated.id = t.id ∧ updated.userId = t.userId ∧ updated.status = t.status ∧
      updated.startDate = t.startDate ∧ updated.createdAt = t.createdAt ∧
      (changePlan s nowMs membershipId newPlanId intentId).2.1.userMemberships =
        s.userMemberships.map (fun x => if x.id == membershipId then updated else x) ∧
      (changePlan s nowMs membershipId newPlanId intentId).2.1.payments = s.payments ∧
      (changePlan s nowMs membershipId newPlanId intentId).2.1.users = s.users := by
  simp only [changePlan, if_neg hnp, hm, hcp, hnpl, updateUserMembership, ht]
  refine ⟨_, rfl, rfl, ?_, ?_, ?_, ?_, ?_, ?_, ?_, ?_⟩ <;> trivial

/-- C4 witness: the frame theorem applied in `storeMismatch` to the call that
loads `mLoaded` and writes the record with id 2. -/
theorem changePlan_update_frame_witness :
    ∃ updated : UserMembership,
      (changePlan storeMismatch 0 2 1 "pi").1 =
        .ok updated monthlyPlan (changePlanProration annualPlan monthlyPlan mLoaded.endDate 0)
          (if changePlanProration annualPlan monthlyPlan mLoaded.endDate 0 > 0 then some "pi"
           else none) ∧
      updated = { mTarget with
        planId := 1,
        endDate := some (0 + (monthlyPlan.validityDays : Int) * msPerDay),
        stripeSubscriptionId :=
          if changePlanProration annualPlan monthlyPlan mLoaded.endDate 0 > 0 then some "pi"
          else mLoaded.stripeSubscriptionId } ∧
      updated.id = mTarget.id ∧ updated.userId = mTarget.userId ∧
      updated.status = mTarget.status ∧
      updated.startDate = mTarget.startDate ∧ updated.createdAt = mTarget.createdAt ∧
      (changePlan storeMismatch 0 2 1 "pi").2.1.userMemberships =
        storeMismatch.userMemberships.map (fun x => if x.id == 2 then updated else x) ∧
      (changePlan storeMismatch 0 2 1 "pi").2.1.payments = storeMismatch.payments ∧
      (changePlan storeMismatch 0 2 1 "pi").2.1.users = storeMismatch.users :=
  changePlan_update_frame storeMismatch 0 2 1 "pi" mLoaded mTarget annualPlan monthlyPlan
    (by decide) rfl rfl rfl rfl

/-- C5: `getUserMembershipByEmail` is the two-hop join — (a) if no payment
carries the email, the result is not-found; (b) any returned membership is
active and shares its `planId` with the first payment carrying the email;
(c) if a payment carries the email and exactly one active stored membership
has that payment's `planId`, that membership is returned. -/
theorem getUserMembershipByEmail_two_hop (s : MemStorage) (email : String) :
    (s.payments.find? (fun p => p.email == email) = none →
      getUserMembershipByEmail s email = none) ∧
    (∀ m, getUserMembershipByEmail s email = some m →
      m.status = "active" ∧
      ∃ p, s.payments.find? (fun p => p.email == email) = some p ∧ m.planId = p.planId) ∧
    (∀ p m, s.payments.find? (fun q => q.email == email) = some p →
      m ∈ s.userMemberships → m.status = "active" → m.planId = p.planId →
      (∀ m' ∈ s.userMemberships, m'.status = "active" → m'.planId = p.planId → m' = m) →
      getUserMembershipByEmail s email = some m) := by
  refine ⟨?_, ?_, ?_⟩
  · intro h
    simp only [getUserMembershipByEmail, h]
  · intro m hm
    rw [getUserMembershipByEmail] at hm
    cases hp : s.payments.find? (fun p => p.email == email) with
    | none => rw [hp] at hm; cases hm
    | some p =>
      rw [hp] at hm
      have hpred := List.find?_some hm
      rw [Bool.and_eq_true, beq_iff_eq, beq_iff_eq] at hpred
      exact ⟨hpred.2, p, rfl, hpred.1⟩
  · intro p m hp hmem hstat hplan huniq
    simp only [getUserMembershipByEmail, hp]
    apply find?_eq_some_of_unique _ m _ hmem
    · rw [Bool.and_eq_true, beq_iff_eq, beq_iff_eq]
      exact ⟨hplan, hstat⟩
    · intro b hb hpb
      rw [Bool.and_eq_true, beq_iff_eq, beq_iff_eq] at hpb
      exact huniq b hb hpb.2 hpb.1

/-- A completed payment for the monthly plan under jane's email. -/
def janePayment : Payment :=
  { id := 1, userId := none, planId := 1, amount := 999/100,
    cardholderName := "Jane Doe", email := "jane@example.com",
    status := "completed", createdAt := 0 }

/-- `storeMonthly15` extended with `janePayment`, so the email → payment →
membership join resolves to `mMonthly15`. -/
def storeWithJane : MemStorage :=
  { storeMonthly15 with
    payments := [janePayment]
    currentPaymentId := 2 }

/-- C5 witness: in a store with one completed payment for the monthly plan
under jane's email and one active monthly membership, the join returns the
membership, and an email with no payment resolves to not-found. -/
theorem getUserMembershipByEmail_two_hop_witness :
    getUserMembershipByEmail storeWithJane "jane@example.com" = some mMonthly15 ∧
    getUserMembershipByEmail storeMonthly15 "nobody@example.com" = none :=
  ⟨(getUserMembershipByEmail_two_hop storeWithJane "jane@example.com").2.2
      janePayment mMonthly15 rfl (List.mem_cons_self _ _) rfl rfl
      (fun m' hm' _ _ => by
        cases List.mem_cons.mp hm' with
        | inl h => exact h
        | inr h => cases h),
   (getUserMembershipByEmail_two_hop storeMonthly15 "nobody@example.com").1 rfl⟩

/-- C6: a purchase request that fails validation is rejected with no state
change and no gateway call; a valid request whose `planId` resolves to no
plan fails PlanNotFound with the storage state unchanged (in particular the
payment count unchanged) and no gateway call — the plan check short-circuits
before the payment-intent creation. -/
theorem processPayment_unknown_plan_no_effect
    (s : MemStorage) (nowMs : Int) (r : PaymentRequest) (intentId : String)
    (demoSuccess : Bool) :
    (validPaymentRequest r = false →
      processPayment s nowMs r intentId demoSuccess = (.validationError, s, [])) ∧
    (validPaymentRequest r = true → getMembershipPlan s r.planId = none →
      processPayment s nowMs r intentId demoSuccess = (.planNotFound, s, []) ∧
      (processPayment s nowMs r intentId demoSuccess).2.1.payments.length =
        s.payments.length) := by
  constructor
  · intro hv
    simp [processPayment, hv]
  · intro hv hplan
    simp [processPayment, hv, hplan]

/-- A request that fails schema validation (`planId` is not a positive
integer). -/
def invalidRequest : PaymentRequest :=
  { sampleRequest with planId := 0 }

/-- A request that passes schema validation but references no stored plan. -/
def unknownPlanRequest : PaymentRequest :=
  { sampleRequest with planId := 3 }

/-- C6 witness: the invalid request is rejected with the seeded store
untouched, and the valid request for the unknown plan 3 fails PlanNotFound
with the store untouched and the payment count unchanged. -/
theorem processPayment_unknown_plan_no_effect_witness :
    processPayment initialStorage 0 invalidRequest "pi" true =
      (.validationError, initialStorage, []) ∧
    processPayment initialStorage 0 unknownPlanRequest "pi" true =
      (.planNotFound, initialStorage, []) ∧
    (processPayment initialStorage 0 unknownPlanRequest "pi" true).2.1.payments.length =
      initialStorage.payments.length :=
  ⟨(processPayment_unknown_plan_no_effect initialStorage 0 invalidRequest "pi" true).1
      (by simp [validPaymentRequest, invalidRequest, sampleRequest]),
   ((processPayment_unknown_plan_no_effect initialStorage 0 unknownPlanRequest "pi" true).2
      (by norm_num [validPaymentRequest, unknownPlanRequest, sampleRequest]; decide) rfl).1,
   ((processPayment_unknown_plan_no_effect initialStorage 0 unknownPlanRequest "pi" true).2
      (by norm_num [validPaymentRequest, unknownPlanRequest, sampleRequest]; decide) rfl).2⟩

/-- C7: the raw card fields (card number, expiry date, CVV) never reach
storage — two purchase requests that agree on every field except the card
fields produce identical outcomes: the same result (including the persisted
Payment record, whose type carries no card data), the same storage state, and
the same gateway calls. -/
theorem processPayment_card_noninterference
    (s : MemStorage) (nowMs : Int) (intentId : String) (demoSuccess : Bool)
    (r1 r2 : PaymentRequest)
    (hp : r1.planId = r2.planId) (ha : r1.amount = r2.amount)
    (hc : r1.cardholderName = r2.cardholderName) (he : r1.email = r2.email)
    (ht : r1.terms = r2.terms) :
    processPayment s nowMs r1 intentId demoSuccess =
      processPayment s nowMs r2 intentId demoSuccess := by
  obtain ⟨p1, a1, c1, e1, cn1, ex1, cv1, t1⟩ := r1
  obtain ⟨p2, a2, c2, e2, cn2, ex2, cv2, t2⟩ := r2
  dsimp only at hp ha hc he ht
  subst hp ha hc he ht
  rfl

/-- `sampleRequest` with every raw card field replaced. -/
def alteredCardRequest : PaymentRequest :=
  { sampleRequest with
    cardNumber := "9999888877776666"
    expiryDate := "01/27"
    cvv := "999" }

/-- C7 witness: the purchase outcome for `sampleRequest` is identical to the
outcome for the same request with a different card number, expiry and CVV. -/
theorem processPayment_card_noninterference_witness :
    processPayment initialStorage 0 sampleRequest "pi" true =
      processPayment initialStorage 0 alteredCardRequest "pi" true :=
  processPayment_card_noninterference initialStorage 0 "pi" true
    sampleRequest alteredCardRequest rfl rfl rfl rfl rfl

/-- The ids assigned by a run of payment creates starting from state `s` are
the consecutive naturals from `s.currentPaymentId`. -/
theorem runCreatePayments_ids (nowMs : Int) :
    ∀ (ds : List InsertPaymentData) (s : MemStorage),
      (runCreatePayments s nowMs ds).1 = List.range' s.currentPaymentId ds.length := by
  intro ds
  induction ds with
  | nil => intro s; rfl
  | cons d ds ih =>
    intro s
    simp only [runCreatePayments, List.length_cons, List.range'_succ, ih]
    rfl

/-- The ids assigned by a run of user creates starting from state `s` are the
consecutive naturals from `s.currentUserId`. -/
theorem runCreateUsers_ids :
    ∀ (ds : List InsertUser) (s : MemStorage),
      (runCreateUsers s ds).1 = List.range' s.currentUserId ds.length := by
  intro ds
  induction ds with
  | nil => intro s; rfl
  | cons d ds ih =>
    intro s
    simp only [runCreateUsers, List.length_cons, List.range'_succ, ih]
    rfl

/-- The ids assigned by a run of membership creates starting from state `s`
are the consecutive naturals from `s.currentMembershipId`. -/
theorem runCreateMemberships_ids (nowMs : Int) :
    ∀ (ds : List InsertUserMembershipData) (s : MemStorage),
      (runCreateMemberships s nowMs ds).1 =
        List.range' s.currentMembershipId ds.length := by
  intro ds
  induction ds with
  | nil => intro s; rfl
  | cons d ds ih =>
    intro s
    simp only [runCreateMemberships, List.length_cons, List.range'_succ, ih]
    rfl

/-- C8: for any sequence of creates on one entity type (payments, users, or
memberships) from the fresh store, the returned ids are exactly 1, 2, 3, ...
— strictly increasing, pairwise distinct, starting at 1, never reused. -/
theorem storage_create_ids_monotonic (nowMs : Int)
    (ps : List InsertPaymentData) (us : List InsertUser)
    (ms : List InsertUserMembershipData) :
    ((runCreatePayments initialStorage nowMs ps).1 = List.range' 1 ps.length ∧
      List.Pairwise (· < ·) (runCreatePayments initialStorage nowMs ps).1 ∧
      (runCreatePayments initialStorage nowMs ps).1.Nodup) ∧
    ((runCreateUsers initialStorage us).1 = List.range' 1 us.length ∧
      List.Pairwise (· < ·) (runCreateUsers initialStorage us).1 ∧
      (runCreateUsers initialStorage us).1.Nodup) ∧
    ((runCreateMemberships initialStorage nowMs ms).1 = List.range' 1 ms.length ∧
      List.Pairwise (· < ·) (runCreateMemberships initialStorage nowMs ms).1 ∧
      (runCreateMemberships initialStorage nowMs ms).1.Nodup) := by
  refine ⟨⟨runCreatePayments_ids nowMs ps initialStorage, ?_, ?_⟩,
          ⟨runCreateUsers_ids us initialStorage, ?_, ?_⟩,
          ⟨runCreateMemberships_ids nowMs ms initialStorage, ?_, ?_⟩⟩
  · rw [runCreatePayments_ids nowMs ps initialStorage]
    exact List.pairwise_lt_range' _ _
  · rw [runCreatePayments_ids nowMs ps initialStorage]
    exact List.nodup_range' _ _
  · rw [runCreateUsers_ids us initialStorage]
    exact List.pairwise_lt_range' _ _
  · rw [runCreateUsers_ids us initialStorage]
    exact List.nodup_range' _ _
  · rw [runCreateMemberships_ids nowMs ms initialStorage]
    exact List.pairwise_lt_range' _ _
  · rw [runCreateMemberships_ids nowMs ms initialStorage]
    exact List.nodup_range' _ _

/-- C9: the change-plan endpoint reads and writes by different keys — the
loaded membership is the first stored record whose `userId` equals the
membershipId path parameter with status "active", the update targets the
record whose own `id` equals membershipId, and in `storeMismatch` one
concrete call reads the record with id 1 while successfully writing the
record with id 2. -/
theorem changePlan_read_write_mismatch :
    (∀ (s : MemStorage) (uid : Nat) (m : UserMembership),
      getUserMembership s uid = some m → m.userId = uid ∧ m.status = "active") ∧
    (∀ (s : MemStorage) (id : Nat) (u : PlanChangeUpdates) (m' : UserMembership)
      (s' : MemStorage),
      updateUserMembership s id u = .ok (m', s') → m'.id = id) ∧
    (getUserMembership storeMismatch 2 = some mLoaded ∧ mLoaded.id ≠ 2 ∧
      ∃ memb plan pa pid,
        (changePlan storeMismatch 0 2 1 "pi").1 = .ok memb plan pa pid ∧ memb.id = 2) := by
  refine ⟨?_, ?_, rfl, by decide, ?_⟩
  · intro s uid m h
    have hpred := List.find?_some h
    rw [Bool.and_eq_true, beq_iff_eq, beq_iff_eq] at hpred
    exact hpred
  · intro s id u m' s' h
    rw [updateUserMembership] at h
    cases hfind : s.userMemberships.find? (fun m => m.id == id) with
    | none => rw [hfind] at h; cases h
    | some existing =>
      rw [hfind] at h
      have hid := List.find?_some hfind
      rw [beq_iff_eq] at hid
      cases h
      exact hid
  · refine ⟨{ mTarget with
        planId := 1,
        endDate := some 2592000000,
        stripeSubscriptionId := some "A" }, monthlyPlan, 0, none, ?_, rfl⟩
    norm_num [changePlan, storeMismatch, getUserMembership, getMembershipPlan, initialStorage,
      mLoaded, mTarget, monthlyPlan, annualPlan, updateUserMembership,
      changePlanProration, ceilDiv, msPerDay]

/-- C9 witness: the lookup and update key facts applied at concrete inputs —
`getUserMembership` on `storeMismatch` with key 2 returns a record whose
userId is 2 and whose status is active, and a successful concrete
`updateUserMembership` returns the record whose id is the key. -/
theorem changePlan_read_write_mismatch_witness :
    (mLoaded.userId = 2 ∧ mLoaded.status = "active") ∧
    ∀ m' s', updateUserMembership storeMismatch 2
        { planId := 1, endDate := some 0, stripeSubscriptionId := none } =
        .ok (m', s') → m'.id = 2 :=
  ⟨changePlan_read_write_mismatch.1 storeMismatch 2 mLoaded rfl,
   fun m' s' h => changePlan_read_write_mismatch.2.1 storeMismatch 2
     { planId := 1, endDate := some 0, stripeSubscriptionId := none } m' s' h⟩

/-- C10: every membership created through a successful purchase has
`userId = 1` (a fixed demo user regardless of the request's email),
`status = "active"`, `endDate = now + plan.validityDays` days, and
`stripeSubscriptionId` equal to the created payment intent's id. -/
theorem purchase_membership_fixed_user
    (s : MemStorage) (nowMs : Int) (r : PaymentRequest) (intentId : String)
    (plan : MembershipPlan)
    (hv : validPaymentRequest r = true)
    (hp : getMembershipPlan s r.planId = some plan) :
    ∃ pay memb, (processPayment s nowMs r intentId true).1 = .ok pay memb intentId ∧
      memb.userId = 1 ∧ memb.status = "active" ∧
      memb.endDate = some (nowMs + (plan.validityDays : Int) * msPerDay) ∧
      memb.stripeSubscriptionId = some intentId := by
  simp only [processPayment, hv, hp, createPayment, createUserMembership]
  exact ⟨_, _, rfl, rfl, rfl, rfl, rfl⟩

/-- C10 witness: a successful concrete purchase of the monthly plan yields a
membership with userId 1, active status, a 30-day end date, and the intent id
as subscription id. -/
theorem purchase_membership_fixed_user_witness :
    ∃ pay memb, (processPayment initialStorage 0 sampleRequest "pi_1" true).1 =
        .ok pay memb "pi_1" ∧
      memb.userId = 1 ∧ memb.status = "active" ∧
      memb.endDate = some (0 + (monthlyPlan.validityDays : Int) * msPerDay) ∧
      memb.stripeSubscriptionId = some "pi_1" :=
  purchase_membership_fixed_user initialStorage 0 sampleRequest "pi_1" monthlyPlan
    (by norm_num [validPaymentRequest, sampleRequest]; decide) rfl

end MembershipPro
